import Mathlib

/-!
Verification development for an audio-classification / autoencoder training
harness (files Code/train.py and Code/models.py).  The repository is thin
orchestration around an external training framework: the definitions below
are a shallow embedding of that orchestration.  Stateful or effectful calls
(trainer construction, fit, plotting, file writes) are embedded as explicit
event traces; pure numeric code (dataset splitting, reconstruction losses)
is embedded as functions over rational tensors; external collaborators
(the convolutional networks, the random permutation generator, the
hyperparameter sampler) are parameters of the definitions.
-/

set_option autoImplicit false

/-! ### Tensors

Samples produced by the dataset adapter are rank-3 tensors
(channel x height x width) of reals, embedded as nested lists of rationals;
a batch is a list of samples. -/

abbrev Tens1 := List ℚ
abbrev Tens2 := List Tens1
abbrev Sample := List Tens2
abbrev Batch := List Sample

/-- Sum of every entry of a rank-3 tensor (the torch sum over dims 1,2,3 of
a batched tensor, applied to one sample). -/
def sampleSum (s : Sample) : ℚ :=
  (s.map (fun m => (m.map List.sum).sum)).sum

/-! ### Callbacks handed to the external trainer (train.py, init_trainer)

A callback is embedded as a record of the keyword options the repository
passes when constructing it; an option the repository does not pass is
none. -/

inductive CallbackKind
  | earlyStopping
  | modelCheckpoint
  deriving DecidableEq, Repr

structure Callback where
  kind : CallbackKind
  monitor : String
  dirpath : Option String
  mode : Option String
  patience : Option Nat
  filename : Option String
  deriving DecidableEq, Repr

/-- train.py line 19. -/
def BASELINE_RESNET_NAME : String := "Baseline Resnet"

/-- train.py line 20. -/
def MEL_AE_NAME : String := "Mel AE"

/-- The checkpoint callback built in init_trainer (train.py lines 92-96 and
98-102): ModelCheckpoint with monitor val_loss, dirpath ./Checkpoints,
mode min and a filename pattern; no other option is passed. -/
def init_trainer_checkpoint : Callback :=
  { kind := CallbackKind.modelCheckpoint
    monitor := "val_loss"
    dirpath := some "./Checkpoints"
    mode := some "min"
    patience := none
    filename := some "\x7bepoch:02d\x7d-\x7bval_acc_step:.2f\x7d" }

/-- The callback list built in init_trainer (train.py lines 90-102): when
early_stopping is true, EarlyStopping is constructed with the single
positional argument val_loss (its monitor) and placed before the
checkpoint callback; otherwise only the checkpoint callback is built. -/
def init_trainer_callbacks (early_stopping : Bool) : List Callback :=
  if early_stopping then
    [{ kind := CallbackKind.earlyStopping
       monitor := "val_loss"
       dirpath := none
       mode := none
       patience := none
       filename := none },
     init_trainer_checkpoint]
  else
    [init_trainer_checkpoint]

/-! ### The training driver train_model (train.py lines 216-242)

The driver is embedded as the trace of orchestration events it performs.
The constructors cover the calls the spec talks about; a constructor that
never occurs in a trace (test, plotConfusionMatrix) records that the
corresponding call is absent from the code path. -/

inductive TrainEvent
  | initTrainer (callbacks : List Callback) (maxEpochs : Nat)
  | fitCall
  | testCall
  | plotLoggerMetrics
  | plotConfusionMatrix (dataName : String)
  | getAUROC
  deriving DecidableEq, Repr

/-- train.py lines 216-242.  train_model builds the trainer through
init_trainer and calls fit; afterwards, only for the baseline classifier
name, it calls plot_logger_metrics and get_auroc (the two
plot_confusion_matrix calls at lines 232-233 are commented out, and the
mel-autoencoder branch is a pass).  No call to a test method occurs. -/
def train_model (name : String) (max_epoch : Nat) (batch_size : Nat)
    (early_stopping : Bool) : List TrainEvent :=
  let _ := batch_size
  let base := [TrainEvent.initTrainer (init_trainer_callbacks early_stopping) max_epoch,
               TrainEvent.fitCall]
  if name = BASELINE_RESNET_NAME then
    base ++ [TrainEvent.plotLoggerMetrics, TrainEvent.getAUROC]
  else if name = MEL_AE_NAME then
    base
  else
    base

/-! ### Dataset splitting (train.py, split_dataset, lines 62-67)

torch random_split with lengths [k, n - k] draws a random permutation of
the n indices from its generator and realises the first subset from the
first k permuted indices and the second from the rest.  The permutation is
a parameter here (the randomness); faithfulness of a run is the hypothesis
that it permutes List.range n. -/

/-- torch.utils.data.random_split(dataset, [num_train, n - num_train])
realised on an index permutation perm. -/
def random_split {α : Type} (dataset : List α) (perm : List Nat)
    (num_train : Nat) : List α × List α :=
  ((perm.take num_train).filterMap (fun i => dataset[i]?),
   (perm.drop num_train).filterMap (fun i => dataset[i]?))

/-- train.py lines 62-67: num_train = floor(num_samples * train_split),
num_val = num_samples - num_train, then random_split on those lengths. -/
def split_dataset {α : Type} (dataset : List α) (perm : List Nat)
    (train_split : ℚ) : List α × List α :=
  let num_samples := dataset.length
  let num_train := (Int.floor ((num_samples : ℚ) * train_split)).toNat
  random_split dataset perm num_train

/-! ### The hyperparameter search driver (train.py lines 245-309)

External collaborators are parameters: suggest is the search algorithm
proposing an integer for (trial number, parameter name, low, high);
randperm is the torch permutation generator as a function of (seed, n);
fit_metric is the training outcome, the val_acc_step value the trainer
reports after fitting the fresh model on the data prepared with the
suggested parameters.  Objects created inside a trial (model, logger,
trainer) are fresh per trial, embedded by indexing them with the trial
number. -/

/-- An index permutation drawn through a torch generator: with an explicit
manual seed the ambient global seed is ignored, without one the ambient
seed is used. -/
def torch_generator_perm (randperm : Nat → Nat → List Nat)
    (ambient_seed : Nat) (manual_seed : Option Nat) (n : Nat) : List Nat :=
  match manual_seed with
  | some s => randperm s n
  | none => randperm ambient_seed n

/-- The dataset split performed inside objective (train.py lines 279-284):
an 0.8 split through random_split with a generator manually seeded to 42.
The suggested trial parameters max_t and batch_size are in scope at this
point of the source and are passed here to state their noninterference. -/
def objective_split {α : Type} (randperm : Nat → Nat → List Nat)
    (ambient_seed : Nat) (max_t batch_size : Nat) (dataset : List α) :
    List α × List α :=
  let _ := max_t
  let _ := batch_size
  let num_samples := dataset.length
  let num_train := (Int.floor ((num_samples : ℚ) * (8 / 10 : ℚ))).toNat
  let perm := torch_generator_perm randperm ambient_seed (some 42) num_samples
  random_split dataset perm num_train

/-- Orchestration events of one hyperparameter-search trial. -/
inductive TrialEvent
  | newModel (id : Nat) (numClasses : Nat)
  | newLogger (id : Nat)
  | newCheckpointCallback (monitor : String) (mode : String)
  | newTrainer (id : Nat) (maxEpochs : Nat)
  | suggestInt (name : String) (lo hi value : Nat)
  | newDataset (dataDir : String) (maxT : Nat)
  | randomSplitSeeded (seed : Nat)
  | logHyperparams (maxT batchSize : Nat)
  | fitCall (modelId trainerId : Nat)
  | readMetric (name : String)
  deriving DecidableEq, Repr

/-- train.py lines 247-293: one trial of the search.  A fresh
BaselineResnetClassifier, DictLogger, checkpoint callback and Trainer
(max_epochs 5) are constructed, the trial suggests max_t in [1,5] and
batch_size in [4,64], the dataset is created and split with seed 42, the
hyperparameters are logged, fit is called once on the fresh model/trainer
pair, and the val_acc_step entry of the callback metrics is returned. -/
def objective (data_dir : String) (suggest : Nat → String → Nat → Nat → Nat)
    (fit_metric : Nat → Nat → ℚ) (i : Nat) : List TrialEvent × ℚ :=
  let max_t := suggest i "max_t" 1 5
  let batch_size := suggest i "batch_size" 4 64
  ([TrialEvent.newModel i 3,
    TrialEvent.newLogger i,
    TrialEvent.newCheckpointCallback "val_acc_step" "max",
    TrialEvent.newTrainer i 5,
    TrialEvent.suggestInt "max_t" 1 5 max_t,
    TrialEvent.suggestInt "batch_size" 4 64 batch_size,
    TrialEvent.newDataset data_dir max_t,
    TrialEvent.randomSplitSeeded 42,
    TrialEvent.logHyperparams max_t batch_size,
    TrialEvent.fitCall i i,
    TrialEvent.readMetric "val_acc_step"],
   fit_metric max_t batch_size)

/-- train.py lines 295-296: study.optimize(objective, n_trials=25) runs the
objective once per trial number. -/
def study_trials (data_dir : String) (suggest : Nat → String → Nat → Nat → Nat)
    (fit_metric : Nat → Nat → ℚ) (n_trials : Nat) : List (List TrialEvent × ℚ) :=
  (List.range n_trials).map (objective data_dir suggest fit_metric)

/-- The value of the best trial of the study created with
direction maximize: the greatest value reported by the 25 trials. -/
def study_best_value (data_dir : String)
    (suggest : Nat → String → Nat → Nat → Nat)
    (fit_metric : Nat → Nat → ℚ) : ℚ :=
  ((study_trials data_dir suggest fit_metric 25).map Prod.snd).foldl max
    (objective data_dir suggest fit_metric 0).2

/-- train.py lines 245-309.  The max_epoch, batch_size, dur_seconds and
comment parameters are never read in the body: the trainer is built with
the literal max_epochs=5, batch_size is shadowed by the suggested value
inside objective, and dur_seconds and comment do not occur.  The final
return at line 309 reads the name trainer, which is local to objective, so
after the study completes the call raises a NameError. -/
def hp_tuning_voxforge_classifier (data_dir : String)
    (max_epoch batch_size dur_seconds : Nat) (comment : String)
    (suggest : Nat → String → Nat → Nat → Nat)
    (fit_metric : Nat → Nat → ℚ) :
    List (List TrialEvent × ℚ) × Except String ℚ :=
  let _ := max_epoch
  let _ := batch_size
  let _ := dur_seconds
  let _ := comment
  (study_trials data_dir suggest fit_metric 25,
   Except.error "NameError: name trainer is not defined")

/-- What one trial does (train.py lines 247-293): exactly one fit call; the
model, trainer and fit events of trial i carry the instance of trial i;
both trial parameters are suggested with their ranges; the value of the
trial is the reported val_acc_step metric of the fit with the suggested
parameters. -/
def trial_ok (data_dir : String) (suggest : Nat → String → Nat → Nat → Nat)
    (fit_metric : Nat → Nat → ℚ) (i : Nat) : Prop :=
  let tr := (objective data_dir suggest fit_metric i).1
  tr.countP (fun e => match e with
    | TrialEvent.fitCall _ _ => true
    | _ => false) = 1 ∧
  TrialEvent.newModel i 3 ∈ tr ∧
  TrialEvent.newTrainer i 5 ∈ tr ∧
  TrialEvent.fitCall i i ∈ tr ∧
  TrialEvent.suggestInt "max_t" 1 5 (suggest i "max_t" 1 5) ∈ tr ∧
  TrialEvent.suggestInt "batch_size" 4 64 (suggest i "batch_size" 4 64) ∈ tr ∧
  TrialEvent.readMetric "val_acc_step" ∈ tr ∧
  (objective data_dir suggest fit_metric i).2
    = fit_metric (suggest i "max_t" 1 5) (suggest i "batch_size" 4 64)

/-- Freshness across trials: the model and trainer instances of trial i do
not occur in a different trial j. -/
def trial_fresh (data_dir : String) (suggest : Nat → String → Nat → Nat → Nat)
    (fit_metric : Nat → Nat → ℚ) (i j : Nat) : Prop :=
  TrialEvent.newModel i 3 ∉ (objective data_dir suggest fit_metric j).1 ∧
  TrialEvent.newTrainer i 5 ∉ (objective data_dir suggest fit_metric j).1

/-! ### Model definitions (models.py)

The convolutional encoder and decoder networks are external framework
modules; a model instance is embedded as the pair of functions its encoder
and decoder attributes realise.  The latent code of a batch is a
batch x latent_dim matrix. -/

/-- models.py lines 155-165: an Autoencoder_1 instance holds an encoder
and a decoder module. -/
structure Autoencoder_1 where
  encoder : Batch → Tens2
  decoder : Tens2 → Batch

/-- models.py lines 167-174: forward encodes the batch and decodes the
latent code (the print of the input shape is an effect outside the
embedding). -/
def Autoencoder_1.forward (m : Autoencoder_1) (x : Batch) : Batch :=
  let z := m.encoder x
  let x_hat := m.decoder z
  x_hat

/-- Elementwise squared difference of two equally shaped rank-3 tensors:
F.mse_loss(x, x_hat, reduction="none") on one sample. -/
def mse_loss_none_sample (a b : Sample) : Sample :=
  List.zipWith (List.zipWith (List.zipWith (fun u v => (u - v) ^ 2))) a b

/-- F.mse_loss(x, x_hat, reduction="none") on a batch. -/
def mse_loss_none (a b : Batch) : Batch :=
  List.zipWith mse_loss_none_sample a b

/-- loss.sum(dim=[1,2,3]) on a batched rank-4 tensor: one scalar per
sample. -/
def sum_dims_123 (t : Batch) : List ℚ :=
  t.map sampleSum

/-- v.mean(dim=[0]) on a rank-1 tensor. -/
def mean_dim0 (v : List ℚ) : ℚ :=
  v.sum / v.length

/-- models.py lines 176-184 (_get_reconstruction_loss): the labels of the
batch are discarded, the input is reconstructed by forward, and the loss
is mse_loss with reduction none, summed over dims [1,2,3] and averaged
over dim 0. -/
def Autoencoder_1.get_reconstruction_loss (m : Autoencoder_1)
    (batch : Batch × List ℤ) : ℚ :=
  let x := batch.1
  let x_hat := m.forward x
  mean_dim0 (sum_dims_123 (mse_loss_none x x_hat))

/-- models.py lines 193-196: training_step returns the reconstruction loss
of the batch (the log call is an effect outside the embedding). -/
def Autoencoder_1.training_step (m : Autoencoder_1) (batch : Batch × List ℤ)
    (batch_idx : Nat) : ℚ :=
  let _ := batch_idx
  m.get_reconstruction_loss batch

/-- Modelled from the words of the claim, for comparison with the source
definition: the mean over the batch dimension of the per-sample sum, over
channel, height and width, of squared differences between the input and
its reconstruction. -/
def spec_recon_loss (m : Autoencoder_1) (x : Batch) : ℚ :=
  ((x.zip (m.forward x)).map
    (fun p => sampleSum (mse_loss_none_sample p.1 p.2))).sum / x.length

/-- models.py lines 207-234: an AutoEncoder instance holds a fixed-topology
encoder (conv stack flattened to a 2-dimensional code) and decoder. -/
structure AutoEncoder where
  encoder : Batch → Tens2
  decoder : Tens2 → Batch

/-- models.py lines 236-239: forward encodes then decodes. -/
def AutoEncoder.forward (m : AutoEncoder) (x : Batch) : Batch :=
  let x1 := m.encoder x
  let x2 := m.decoder x1
  x2

/-- models.py lines 241-253: compute_epoch_loss_autoencoder folds over the
loader, accumulating loss_fn(model(features), features, reduction="sum")
and the number of examples of each batch, and returns the accumulated loss
divided by the number of examples.  model is the forward transform and
loss_fn_sum the sum-reduced loss, both external parameters. -/
def compute_epoch_loss_autoencoder (model : Batch → Batch)
    (loss_fn_sum : Batch → Batch → ℚ)
    (data_loader : List (Batch × List ℤ)) : ℚ :=
  let acc := data_loader.foldl
    (fun acc b =>
      let features := b.1
      let logits := model features
      let loss := loss_fn_sum logits features
      (acc.1 + loss, acc.2 + features.length))
    ((0 : ℚ), (0 : Nat))
  acc.1 / (acc.2 : ℚ)

/-! ### Post-processing persistence (train.py, plot_logger_metrics lines
114-141 and plot_confusion_matrix lines 144-190)

Each function is embedded as the trace of file writes it performs.  A
write records the directory, the file name and the persisted content;
every other statement of those functions (figure construction, showing the
plot, printing the accuracy) writes no file. -/

inductive FileKind
  | json
  | png
  | csv
  deriving DecidableEq, Repr

/-- Content persisted by a write: the metrics dict dumped as JSON, a
rendered image, or a matrix written as CSV. -/
inductive Payload
  | metricsDict (metrics : List (String × List ℚ))
  | image
  | table (m : List (List ℚ))
  deriving DecidableEq, Repr

structure FileWrite where
  dir : String
  filename : String
  kind : FileKind
  payload : Payload
  deriving DecidableEq, Repr

/-- The in-memory logger sink: a dict of per-epoch scalar metric lists. -/
structure DictLogger where
  metrics : List (String × List ℚ)

/-- train.py lines 114-141: dump logger.metrics as JSON to
measurements_path/plot_filename-metrics.json, then save the loss/accuracy
figure as measurements_path/plot_filename. -/
def plot_logger_metrics (logger : DictLogger)
    (measurements_path plot_filename : String) : List FileWrite :=
  [{ dir := measurements_path
     filename := plot_filename ++ "-metrics.json"
     kind := FileKind.json
     payload := Payload.metricsDict logger.metrics },
   { dir := measurements_path
     filename := plot_filename
     kind := FileKind.png
     payload := Payload.image }]

/-- train.py lines 178-179: each row of the confusion matrix is divided by
its row sum. -/
def row_normalize (m : List (List ℚ)) : List (List ℚ) :=
  m.map (fun r => r.map (fun x => x / r.sum))

/-- train.py lines 144-190: after accumulating conf_mat from the model
predictions (an external computation, passed as conf_mat), the function
saves a raw PNG and CSV and then a row-normalized PNG and CSV, all under
measurements_path, with names built from the model name, the plot time and
the data-set name. -/
def plot_confusion_matrix (model_name data_name plot_time : String)
    (measurements_path : String) (conf_mat : List (List ℚ)) : List FileWrite :=
  let raw_base := model_name ++ plot_time ++ "ConfMat" ++ "-" ++ data_name ++ "-raw"
  let norm_base := model_name ++ plot_time ++ "ConfMat" ++ "-" ++ data_name ++ "-norm"
  [{ dir := measurements_path
     filename := raw_base ++ ".png"
     kind := FileKind.png
     payload := Payload.image },
   { dir := measurements_path
     filename := raw_base ++ ".csv"
     kind := FileKind.csv
     payload := Payload.table conf_mat },
   { dir := measurements_path
     filename := norm_base ++ ".png"
     kind := FileKind.png
     payload := Payload.image },
   { dir := measurements_path
     filename := norm_base ++ ".csv"
     kind := FileKind.csv
     payload := Payload.table (row_normalize conf_mat) }]

/-! ### Concrete instances used by witnesses -/

/-- A concrete sampler: always proposes the low end of the range. -/
def wit_suggest : Nat → String → Nat → Nat → Nat := fun _ _ lo _ => lo

/-- A concrete training outcome. -/
def wit_metric : Nat → Nat → ℚ := fun a b => (a : ℚ) + b

/-- A concrete autoencoder whose reconstruction of every sample is the
constant 1x1x1 sample holding 0. -/
def wit_ae : Autoencoder_1 :=
  { encoder := fun x => x.map (fun _ => [])
    decoder := fun z => z.map (fun _ => [[[(0 : ℚ)]]]) }

/-- A concrete two-sample batch of 1x1x1 tensors. -/
def wit_batch : Batch := [[[[(1 : ℚ)]]], [[[(3 : ℚ)]]]]

/-! ### Helper lemmas -/

theorem le_foldl_max (l : List ℚ) : ∀ d : ℚ, d ≤ l.foldl max d := by
  induction l with
  | nil => intro d; exact le_refl d
  | cons a t ih =>
    intro d
    exact le_trans (le_max_left d a) (ih (max d a))

theorem foldl_max_le_of_mem (l : List ℚ) :
    ∀ (d x : ℚ), x ∈ l → x ≤ l.foldl max d := by
  induction l with
  | nil => intro d x hx; exact absurd hx (List.not_mem_nil x)
  | cons a t ih =>
    intro d x hx
    rcases List.mem_cons.mp hx with h | h
    · subst h
      exact le_trans (le_max_right d x) (le_foldl_max t (max d x))
    · exact ih (max d a) x h

theorem foldl_max_mem (l : List ℚ) :
    ∀ d : ℚ, l.foldl max d = d ∨ l.foldl max d ∈ l := by
  induction l with
  | nil => intro d; exact Or.inl rfl
  | cons a t ih =>
    intro d
    rcases ih (max d a) with h | h
    · rcases max_choice d a with hd | ha
      · exact Or.inl (by rw [List.foldl_cons, h, hd])
      · exact Or.inr (by rw [List.foldl_cons, h, ha]; exact List.mem_cons_self a t)
    · exact Or.inr (List.mem_cons_of_mem a h)

theorem filterMap_getElem_length {α : Type} (ds : List α) :
    ∀ l : List Nat, (∀ i ∈ l, i < ds.length) →
      (l.filterMap (fun i => ds[i]?)).length = l.length := by
  intro l
  induction l with
  | nil => intro _; rfl
  | cons j t ih =>
    intro h
    have hj : j < ds.length := h j (List.mem_cons_self j t)
    rw [List.filterMap_cons, List.getElem?_eq_getElem hj]
    simp only [List.length_cons]
    rw [ih (fun i hi => h i (List.mem_cons_of_mem _ hi))]

theorem range_filterMap_getElem {α : Type} (ds : List α) :
    (List.range ds.length).filterMap (fun i => ds[i]?) = ds := by
  induction ds with
  | nil => rfl
  | cons a t ih =>
    rw [List.length_cons, List.range_succ_eq_map, List.filterMap_cons]
    simp only [List.getElem?_cons_zero, List.filterMap_map]
    have : (fun i => (a :: t)[i + 1]?) = fun i => t[i]? := by
      funext i
      exact List.getElem?_cons_succ
    simp only [Function.comp_def, List.getElem?_cons_succ]
    rw [ih]

theorem sum_dims_mse_zip (x : Batch) : ∀ xh : Batch,
    sum_dims_123 (mse_loss_none x xh)
      = (x.zip xh).map (fun p => sampleSum (mse_loss_none_sample p.1 p.2)) := by
  induction x with
  | nil => intro xh; rfl
  | cons a t ih =>
    intro xh
    cases xh with
    | nil => rfl
    | cons b u =>
      simp only [mse_loss_none, List.zipWith_cons_cons, sum_dims_123,
        List.map_cons, List.zip_cons_cons]
      rw [show List.zipWith mse_loss_none_sample t u = mse_loss_none t u from rfl]
      rw [show List.map sampleSum (mse_loss_none t u) = sum_dims_123 (mse_loss_none t u) from rfl]
      rw [ih u]

theorem epoch_loss_foldl (model : Batch → Batch)
    (loss_fn_sum : Batch → Batch → ℚ) :
    ∀ (dl : List (Batch × List ℤ)) (a : ℚ) (b : Nat),
      dl.foldl
        (fun acc p => (acc.1 + loss_fn_sum (model p.1) p.1, acc.2 + p.1.length))
        (a, b)
      = (a + (dl.map (fun p => loss_fn_sum (model p.1) p.1)).sum,
         b + (dl.map (fun p => p.1.length)).sum) := by
  intro dl
  induction dl with
  | nil => intro a b; simp
  | cons hd tl ih =>
    intro a b
    rw [List.foldl_cons, ih, List.map_cons, List.map_cons, List.sum_cons,
      List.sum_cons]
    simp [add_assoc]

/-! ### Claim C1 -/

/-- C1 counterexample: the claim says train_model calls the fit and test
methods of the trainer; on the concrete run with the baseline classifier
name (default max_epoch 5, batch_size 10, early stopping on) no test call
occurs in the trace. -/
theorem c1_no_test_call :
    TrainEvent.testCall ∉ train_model BASELINE_RESNET_NAME 5 10 true := by
  decide

/-- C1 (amended): for every completed training run, train_model builds the
trainer with the init_trainer callbacks and calls fit; it never calls a
test method; afterwards, when the baseline classifier name was selected it
produces the loss/accuracy plot and an AUROC score but no confusion
matrix, and when the mel autoencoder name was selected it performs no
post-processing at all. -/
theorem c1_train_model_trace :
    ∀ (max_epoch batch_size : Nat) (es : Bool),
      train_model BASELINE_RESNET_NAME max_epoch batch_size es
        = [TrainEvent.initTrainer (init_trainer_callbacks es) max_epoch,
           TrainEvent.fitCall, TrainEvent.plotLoggerMetrics,
           TrainEvent.getAUROC] ∧
      train_model MEL_AE_NAME max_epoch batch_size es
        = [TrainEvent.initTrainer (init_trainer_callbacks es) max_epoch,
           TrainEvent.fitCall] ∧
      TrainEvent.testCall ∉ train_model BASELINE_RESNET_NAME max_epoch batch_size es ∧
      TrainEvent.testCall ∉ train_model MEL_AE_NAME max_epoch batch_size es ∧
      (∀ d : String,
        TrainEvent.plotConfusionMatrix d ∉
          train_model BASELINE_RESNET_NAME max_epoch batch_size es) := by
  intro max_epoch batch_size es
  have hb : train_model BASELINE_RESNET_NAME max_epoch batch_size es
      = [TrainEvent.initTrainer (init_trainer_callbacks es) max_epoch,
         TrainEvent.fitCall, TrainEvent.plotLoggerMetrics,
         TrainEvent.getAUROC] := by
    unfold train_model
    rw [if_pos rfl]
    rfl
  have hm : train_model MEL_AE_NAME max_epoch batch_size es
      = [TrainEvent.initTrainer (init_trainer_callbacks es) max_epoch,
         TrainEvent.fitCall] := by
    unfold train_model
    rw [if_neg (by decide), if_pos rfl]
  refine ⟨hb, hm, ?_, ?_, ?_⟩
  · rw [hb]; simp
  · rw [hm]; simp
  · intro d; rw [hb]; simp

/-! ### Claim C2 -/

/-- C2 counterexample: the claim says init_trainer installs, when early
stopping is requested, an early-stopping callback on val_loss with a
configured patience; in fact no callback built by init_trainer carries a
patience option. -/
theorem c2_no_patience_configured :
    ¬ ∃ c ∈ init_trainer_callbacks true,
        c.kind = CallbackKind.earlyStopping ∧ c.patience.isSome := by
  decide

/-- C2 (amended): init_trainer configures the external trainer only
through the callbacks it builds, whose keyword options are the monitor
metric name val_loss, the checkpoint directory ./Checkpoints, the mode min
and a checkpoint filename pattern; when early_stopping is true an
early-stopping callback monitoring val_loss is installed in front of the
checkpoint callback, constructed with no patience option, so the patience
is the library default rather than a value configured here. -/
theorem c2_init_trainer_callbacks :
    init_trainer_callbacks true
      = [{ kind := CallbackKind.earlyStopping, monitor := "val_loss",
           dirpath := none, mode := none, patience := none, filename := none },
         init_trainer_checkpoint] ∧
    init_trainer_callbacks false = [init_trainer_checkpoint] ∧
    init_trainer_checkpoint.kind = CallbackKind.modelCheckpoint ∧
    init_trainer_checkpoint.monitor = "val_loss" ∧
    init_trainer_checkpoint.dirpath = some "./Checkpoints" ∧
    init_trainer_checkpoint.mode = some "min" ∧
    init_trainer_checkpoint.patience = none ∧
    (init_trainer_callbacks true).all (fun c => c.patience.isNone) = true ∧
    (init_trainer_callbacks false).all (fun c => c.patience.isNone) = true := by
  refine ⟨rfl, rfl, rfl, rfl, rfl, rfl, rfl, rfl, rfl⟩

/-! ### Claim C3 -/

/-- C3: every hyperparameter-search trial builds a fresh model and a fresh
trainer, has the search algorithm propose max_t and batch_size, calls fit
exactly once on the fresh pair and returns the reported val_acc_step
metric; the outer loop runs 25 such trials and the best value of the study
is the maximum of the reported metrics. -/
theorem c3_hp_search_trials (data_dir : String)
    (suggest : Nat → String → Nat → Nat → Nat) (fit_metric : Nat → Nat → ℚ)
    (i j : Nat) (hi : i < 25) (hij : i ≠ j) :
    trial_ok data_dir suggest fit_metric i ∧
    trial_fresh data_dir suggest fit_metric i j ∧
    (study_trials data_dir suggest fit_metric 25).length = 25 ∧
    (study_trials data_dir suggest fit_metric 25)[i]?
      = some (objective data_dir suggest fit_metric i) ∧
    (objective data_dir suggest fit_metric i).2
      ≤ study_best_value data_dir suggest fit_metric ∧
    (∃ k, k < 25 ∧
      study_best_value data_dir suggest fit_metric
        = (objective data_dir suggest fit_metric k).2) := by
  have hjne : j ≠ i := fun h => hij h.symm
  refine ⟨?_, ?_, ?_, ?_, ?_, ?_⟩
  · refine ⟨?_, ?_, ?_, ?_, ?_, ?_, ?_, ?_⟩ <;>
      simp [objective, trial_ok, List.countP_cons]
  · constructor <;> simp [objective, trial_fresh, hij, hjne]
  · simp [study_trials]
  · simp [study_trials, List.getElem?_map, List.getElem?_range hi]
  · have hmem : (objective data_dir suggest fit_metric i).2
        ∈ (study_trials data_dir suggest fit_metric 25).map Prod.snd := by
      simp only [study_trials, List.map_map]
      exact List.mem_map.mpr ⟨i, List.mem_range.mpr hi, rfl⟩
    exact foldl_max_le_of_mem _ _ _ hmem
  · rcases foldl_max_mem
      ((study_trials data_dir suggest fit_metric 25).map Prod.snd)
      (objective data_dir suggest fit_metric 0).2 with h | h
    · exact ⟨0, by norm_num, h⟩
    · simp only [study_trials, List.map_map, List.mem_map,
        List.mem_range] at h
      rcases h with ⟨k, hk, hkeq⟩
      exact ⟨k, hk, hkeq.symm⟩

/-- C3 witness: the trial properties at the concrete sampler wit_suggest,
the concrete training outcome wit_metric and trials 0 and 1. -/
theorem c3_hp_search_trials_inst :
    (0 : Nat) < 25 ∧ (0 : Nat) ≠ 1 ∧
    (trial_ok "d" wit_suggest wit_metric 0 ∧
     trial_fresh "d" wit_suggest wit_metric 0 1 ∧
     (study_trials "d" wit_suggest wit_metric 25).length = 25 ∧
     (study_trials "d" wit_suggest wit_metric 25)[0]?
       = some (objective "d" wit_suggest wit_metric 0) ∧
     (objective "d" wit_suggest wit_metric 0).2
       ≤ study_best_value "d" wit_suggest wit_metric ∧
     (∃ k, k < 25 ∧
       study_best_value "d" wit_suggest wit_metric
         = (objective "d" wit_suggest wit_metric k).2)) :=
  ⟨by decide, by decide,
   c3_hp_search_trials "d" wit_suggest wit_metric 0 1
     (by decide) (by decide)⟩

/-! ### Claim C4 -/

/-- C4: for every dataset of n samples and every split fraction t in
[0,1], split_dataset returns a training subset of exactly floor(n*t)
samples and a validation subset of exactly n - floor(n*t) samples, and the
two subsets together are a permutation of the original dataset, for any
run of the random permutation generator (any perm permuting the n
indices). -/
theorem c4_split_dataset_partition {α : Type} (dataset : List α)
    (perm : List Nat) (t : ℚ)
    (hperm : perm.Perm (List.range dataset.length))
    (_ht0 : 0 ≤ t) (ht1 : t ≤ 1) :
    (split_dataset dataset perm t).1.length
      = (Int.floor ((dataset.length : ℚ) * t)).toNat ∧
    (split_dataset dataset perm t).2.length
      = dataset.length - (Int.floor ((dataset.length : ℚ) * t)).toNat ∧
    ((split_dataset dataset perm t).1
      ++ (split_dataset dataset perm t).2).Perm dataset := by
  have hnn : (0 : ℚ) ≤ (dataset.length : ℚ) := by positivity
  have hpl : perm.length = dataset.length := by
    rw [hperm.length_eq, List.length_range]
  have hkn : (Int.floor ((dataset.length : ℚ) * t)).toNat ≤ dataset.length := by
    have h1 : (dataset.length : ℚ) * t ≤ (dataset.length : ℚ) := by
      calc (dataset.length : ℚ) * t ≤ (dataset.length : ℚ) * 1 :=
            mul_le_mul_of_nonneg_left ht1 hnn
        _ = (dataset.length : ℚ) := mul_one _
    have h2 : Int.floor ((dataset.length : ℚ) * t) ≤ (dataset.length : ℤ) := by
      have h3 := Int.floor_le_floor h1
      rwa [Int.floor_natCast] at h3
    exact Int.toNat_le.mpr h2
  have hbound : ∀ i ∈ perm, i < dataset.length := fun i hi =>
    List.mem_range.mp (hperm.subset hi)
  simp only [split_dataset, random_split]
  refine ⟨?_, ?_, ?_⟩
  · rw [filterMap_getElem_length dataset _
      (fun i hi => hbound i (List.take_subset _ perm hi))]
    rw [List.length_take, hpl, Nat.min_eq_left hkn]
  · rw [filterMap_getElem_length dataset _
      (fun i hi => hbound i (List.drop_subset _ perm hi))]
    rw [List.length_drop, hpl]
  · rw [← List.filterMap_append, List.take_append_drop]
    have h1 := hperm.filterMap (fun i => dataset[i]?)
    rwa [range_filterMap_getElem dataset] at h1

/-- C4 witness: the split properties on the concrete dataset [10, 20, 30]
with permutation [2, 0, 1] and split fraction 1/2. -/
theorem c4_split_dataset_partition_inst :
    ([2, 0, 1] : List Nat).Perm
      (List.range ([10, 20, 30] : List Nat).length) ∧
    (0 : ℚ) ≤ mkRat 1 2 ∧ (mkRat 1 2 : ℚ) ≤ 1 ∧
    ((split_dataset ([10, 20, 30] : List Nat) [2, 0, 1] (mkRat 1 2)).1.length
       = (Int.floor ((([10, 20, 30] : List Nat).length : ℚ) * (mkRat 1 2))).toNat ∧
     (split_dataset ([10, 20, 30] : List Nat) [2, 0, 1] (mkRat 1 2)).2.length
       = ([10, 20, 30] : List Nat).length
         - (Int.floor ((([10, 20, 30] : List Nat).length : ℚ) * (mkRat 1 2))).toNat ∧
     ((split_dataset ([10, 20, 30] : List Nat) [2, 0, 1] (mkRat 1 2)).1
       ++ (split_dataset ([10, 20, 30] : List Nat) [2, 0, 1] (mkRat 1 2)).2).Perm
       ([10, 20, 30] : List Nat)) :=
  ⟨by decide, by decide, by decide,
   c4_split_dataset_partition [10, 20, 30] [2, 0, 1] (mkRat 1 2)
     (by decide) (by decide) (by decide)⟩

/-! ### Claim C5 -/

/-- C5: for every batch (x, y) whose reconstruction has the batch length of
x, the loss returned by the training step of Autoencoder_1 ignores the
labels y and equals the mean over the batch dimension of the per-sample
sum, over channel, height and width, of squared differences between x and
the reconstruction forward(x). -/
theorem c5_training_step_loss (m : Autoencoder_1) (x : Batch)
    (y yp : List ℤ) (batch_idx : Nat)
    (hlen : (m.forward x).length = x.length) :
    m.training_step (x, y) batch_idx = spec_recon_loss m x ∧
    m.training_step (x, y) batch_idx = m.training_step (x, yp) batch_idx := by
  constructor
  · simp only [Autoencoder_1.training_step, Autoencoder_1.get_reconstruction_loss,
      mean_dim0, spec_recon_loss]
    rw [sum_dims_mse_zip]
    have hl : ((x.zip (m.forward x)).map
        (fun p => sampleSum (mse_loss_none_sample p.1 p.2))).length
        = x.length := by
      rw [List.length_map, List.length_zip, hlen, Nat.min_self]
    rw [hl]
  · rfl

/-- C5 witness: the loss identity at the concrete autoencoder wit_ae and
the concrete batch wit_batch, with two different label vectors. -/
theorem c5_training_step_loss_inst :
    (wit_ae.forward wit_batch).length = wit_batch.length ∧
    (wit_ae.training_step (wit_batch, [0]) 0 = spec_recon_loss wit_ae wit_batch ∧
     wit_ae.training_step (wit_batch, [0]) 0
       = wit_ae.training_step (wit_batch, [1]) 0) :=
  ⟨by decide, c5_training_step_loss wit_ae wit_batch [0] [1] 0 (by decide)⟩

/-! ### Claim C6 -/

/-- C6: for both autoencoder variants, the forward transform equals the
composition of the exposed decoder with the exposed encoder. -/
theorem c6_forward_composition :
    ∀ (m1 : Autoencoder_1) (m2 : AutoEncoder) (x1 x2 : Batch),
      m1.forward x1 = m1.decoder (m1.encoder x1) ∧
      m2.forward x2 = m2.decoder (m2.encoder x2) :=
  fun _ _ _ _ => ⟨rfl, rfl⟩

/-! ### Claim C7 -/

/-- C7: the post-processing functions persist through file writes and
nothing else.  plot_logger_metrics performs exactly two writes under the
measurements path: the metrics dict of the logger sink dumped as JSON and
one PNG loss/accuracy plot; plot_confusion_matrix performs exactly four
writes under the measurements path: a PNG and a CSV holding the raw
confusion matrix, then a PNG and a CSV holding the row-normalized
confusion matrix. -/
theorem c7_postprocessing_writes (logger : DictLogger)
    (measurements_path plot_filename model_name data_name plot_time : String)
    (conf_mat : List (List ℚ)) :
    (plot_logger_metrics logger measurements_path plot_filename).map
        FileWrite.dir
      = [measurements_path, measurements_path] ∧
    (plot_logger_metrics logger measurements_path plot_filename).map
        (fun w => (w.kind, w.payload))
      = [(FileKind.json, Payload.metricsDict logger.metrics),
         (FileKind.png, Payload.image)] ∧
    (plot_logger_metrics logger measurements_path plot_filename).map
        FileWrite.filename
      = [plot_filename ++ "-metrics.json", plot_filename] ∧
    (plot_confusion_matrix model_name data_name plot_time measurements_path
        conf_mat).map FileWrite.dir
      = [measurements_path, measurements_path, measurements_path,
         measurements_path] ∧
    (plot_confusion_matrix model_name data_name plot_time measurements_path
        conf_mat).map (fun w => (w.kind, w.payload))
      = [(FileKind.png, Payload.image),
         (FileKind.csv, Payload.table conf_mat),
         (FileKind.png, Payload.image),
         (FileKind.csv, Payload.table (row_normalize conf_mat))] ∧
    (plot_confusion_matrix model_name data_name plot_time measurements_path
        conf_mat).map FileWrite.filename
      = [model_name ++ plot_time ++ "ConfMat" ++ "-" ++ data_name ++ "-raw" ++ ".png",
         model_name ++ plot_time ++ "ConfMat" ++ "-" ++ data_name ++ "-raw" ++ ".csv",
         model_name ++ plot_time ++ "ConfMat" ++ "-" ++ data_name ++ "-norm" ++ ".png",
         model_name ++ plot_time ++ "ConfMat" ++ "-" ++ data_name ++ "-norm" ++ ".csv"] :=
  ⟨rfl, rfl, rfl, rfl, rfl, rfl⟩

/-! ### Claim C8 -/

/-- C8: the split inside a hyperparameter-search trial draws its
permutation from a generator manually seeded with the fixed value 42, so
for a fixed dataset the split is the same in every trial (whatever
parameters the trial proposed) and in any two runs of the search (whatever
the ambient random state of each run is): it is determined by the
permutation algorithm, the seed 42 and the dataset alone. -/
theorem c8_seeded_split_determinism {α : Type}
    (randperm : Nat → Nat → List Nat) (ambient1 ambient2 : Nat)
    (max_t1 batch_size1 max_t2 batch_size2 : Nat) (dataset : List α) :
    objective_split randperm ambient1 max_t1 batch_size1 dataset
      = objective_split randperm ambient2 max_t2 batch_size2 dataset ∧
    objective_split randperm ambient1 max_t1 batch_size1 dataset
      = random_split dataset (randperm 42 dataset.length)
          (Int.floor ((dataset.length : ℚ) * (8 / 10 : ℚ))).toNat :=
  ⟨rfl, rfl⟩

/-! ### Claim C9 -/

/-- C9: the behaviour and the result of hp_tuning_voxforge_classifier do
not depend on its max_epoch, batch_size, dur_seconds or comment arguments:
two calls differing only in those arguments are identical. -/
theorem c9_unused_args_noninterference (data_dir : String)
    (suggest : Nat → String → Nat → Nat → Nat) (fit_metric : Nat → Nat → ℚ)
    (max_epoch1 batch_size1 dur_seconds1 max_epoch2 batch_size2 dur_seconds2 : Nat)
    (comment1 comment2 : String) :
    hp_tuning_voxforge_classifier data_dir max_epoch1 batch_size1 dur_seconds1
        comment1 suggest fit_metric
      = hp_tuning_voxforge_classifier data_dir max_epoch2 batch_size2 dur_seconds2
          comment2 suggest fit_metric :=
  rfl

/-! ### Claim C10 -/

/-- C10: for every model, sum-reduced loss function and data loader
yielding at least one example, compute_epoch_loss_autoencoder returns the
sum over all batches of the per-batch summed loss between the model output
and the input features, divided by the total number of examples seen. -/
theorem c10_epoch_loss_mean (model : Batch → Batch)
    (loss_fn_sum : Batch → Batch → ℚ) (data_loader : List (Batch × List ℤ))
    (_h : 1 ≤ (data_loader.map (fun p => p.1.length)).sum) :
    compute_epoch_loss_autoencoder model loss_fn_sum data_loader
      = (data_loader.map (fun p => loss_fn_sum (model p.1) p.1)).sum
        / (((data_loader.map (fun p => p.1.length)).sum : ℕ) : ℚ) := by
  simp only [compute_epoch_loss_autoencoder]
  rw [epoch_loss_foldl]
  simp only [zero_add]

/-- C10 witness: the epoch loss identity on a loader holding the single
two-sample batch wit_batch with the constant loss function 10. -/
theorem c10_epoch_loss_mean_inst :
    1 ≤ (([(wit_batch, ([0] : List ℤ))]).map (fun p => p.1.length)).sum ∧
    compute_epoch_loss_autoencoder (fun b => b) (fun _ _ => (10 : ℚ))
        [(wit_batch, ([0] : List ℤ))]
      = (([(wit_batch, ([0] : List ℤ))]).map
          (fun p => (fun (_ _ : Batch) => (10 : ℚ)) ((fun b => b) p.1) p.1)).sum
        / (((([(wit_batch, ([0] : List ℤ))]).map (fun p => p.1.length)).sum : ℕ) : ℚ) :=
  ⟨by decide,
   c10_epoch_loss_mean (fun b => b) (fun _ _ => (10 : ℚ))
     [(wit_batch, ([0] : List ℤ))] (by decide)⟩
